import Mathlib

/-!
Shallow embedding of the Parakeet MLX transcription server
(`parakeet-server/server.py`): the model-lifecycle function `get_model`, the
`/transcribe` request handler, and the `/health` endpoint, together with
theorems settling the specification claims about them.

Conventions of the embedding:
* The inference model object is opaque: `Model` carries only an identity.
* `from_pretrained` and `model.transcribe` are external effects; their
  outcomes for one request are carried in an `Env` record as `Except` values
  (`Except.error e` models the Python call raising an exception whose
  `str` is `e`).
* The process-global `_model` variable is threaded explicitly as an
  `Option Model` state.
* Python float segment times are carried opaquely as rationals; no float
  arithmetic is performed on them, they are only copied.
* The filesystem is reduced to the one fact the claims ask about: whether
  the request's uniquely-named temporary file still exists when the handler
  returns (`tmpExistsAfter`).
-/

namespace ParakeetServer

/-- Opaque inference model instance (result of `from_pretrained`). -/
structure Model where
  id : Nat
deriving DecidableEq, Repr

/-- Uploaded audio bytes. -/
abbrev Bytes := List Nat

/-- One segment object of a parakeet transcription result; `stop` models the
source attribute `end` (a Lean keyword). -/
structure Segment where
  start : Rat
  stop : Rat
  text : String
deriving DecidableEq, Repr

/-- The `segments` attribute of a result object, as Python sees it:
the attribute may be missing entirely (`hasattr` is false), present but
`None`, or present as a list. -/
inductive SegmentsAttr where
  | attrMissing : SegmentsAttr
  | attrNone : SegmentsAttr
  | attrList : List Segment → SegmentsAttr
deriving DecidableEq, Repr

/-- A transcription result object returned by `model.transcribe`. -/
structure TranscriptionResult where
  text : String
  segments : SegmentsAttr
deriving DecidableEq, Repr

/-- One entry of the response's `segments` list: the dict
`{"start": seg.start, "end": seg.end, "text": seg.text}`; `stop` models the
JSON key `"end"`. -/
structure SegOut where
  start : Rat
  stop : Rat
  text : String
deriving DecidableEq, Repr

/-- The success JSON body `{"text": ..., "segments": [...]}`. -/
structure TranscribeResponse where
  text : String
  segments : List SegOut
deriving DecidableEq, Repr

/-- What the caller of the handler observes:
* `ok` - the 200 `JSONResponse` built in the `try` block;
* `httpError` - an `HTTPException(status_code, detail)` raised by the
  handler and rendered by FastAPI as `{"detail": ...}` with that status;
* `unhandled` - an exception that escaped the handler uncaught (FastAPI's
  server-error middleware turns it into a generic 500). -/
inductive Outcome where
  | ok : TranscribeResponse → Outcome
  | httpError : Nat → String → Outcome
  | unhandled : String → Outcome
deriving DecidableEq, Repr

/-! ### Python truthiness and `pathlib.Path(...).suffix` -/

/-- Split a character list at every occurrence of `c`
(like Python `str.split(c)`, keeping empty pieces). -/
def splitOnChar (c : Char) : List Char → List (List Char)
  | [] => [[]]
  | a :: rest =>
    let r := splitOnChar c rest
    if a = c then [] :: r
    else
      match r with
      | [] => [[a]]
      | h :: t => (a :: h) :: t

/-- `pathlib` keeps a path component iff it is non-empty and not `"."`. -/
def keepComp (c : List Char) : Bool := !c.isEmpty && !(c == ['.'])

/-- The final path component (`pathlib.PurePath.name`), as characters:
split on `/`, drop empty and `"."` components, take the last. -/
def pathNameChars (s : String) : List Char :=
  ((splitOnChar '/' s.toList).filter keepComp).getLast?.getD []

/-- Index of the last `'.'` in a character list (Python `str.rfind('.')`,
with `none` for "not found"). -/
def lastDotIdx : List Char → Option Nat
  | [] => none
  | a :: rest =>
    match lastDotIdx rest with
    | some j => some (j + 1)
    | none => if a = '.' then some 0 else none

/-- `pathlib.PurePath(s).suffix`: the extension of the final component,
dot included; empty when the name has no dot, starts with its only dot
(hidden file) or ends with the dot. -/
def pathSuffix (s : String) : String :=
  let name := pathNameChars s
  match lastDotIdx name with
  | none => ""
  | some i => if 0 < i ∧ i < name.length - 1 then String.mk (name.drop i) else ""

/-- Line 76 of server.py:
`suffix = Path(audio.filename).suffix if audio.filename else ".webm"`.
`audio.filename` is falsy when it is `None` or the empty string. -/
def chooseSuffix : Option String → String
  | none => ".webm"
  | some s => if s = "" then ".webm" else pathSuffix s

/-- `content_type = audio.content_type or "application/octet-stream"`
(line 74; the value is computed but never used for validation). -/
def effectiveContentType (ct : Option String) : String :=
  ct.getD "application/octet-stream"

/-! ### Model lifecycle (`get_model`) -/

/-- Lines 27-34 of server.py, one complete call executed atomically:

    def get_model():
        global _model
        if _model is None:
            _model = from_pretrained("mlx-community/parakeet-tdt-0.6b-v3")
        return _model

`construct` is the outcome `from_pretrained` would have on this call.
Returns (result of the call, new `_model` state, number of
`from_pretrained` invocations this call performed). When construction
raises, the assignment never happens, so `_model` stays `none`. -/
def get_model (construct : Except String Model) (st : Option Model) :
    Except String Model × Option Model × Nat :=
  match st with
  | some m => (Except.ok m, some m, 0)
  | none =>
    match construct with
    | Except.ok m => (Except.ok m, some m, 1)
    | Except.error e => (Except.error e, none, 1)

/-- `k` sequential calls to `get_model`, each running to completion before
the next starts (the scheduling the single-threaded event loop actually
provides, since `get_model` contains no `await` point). Returns the list of
per-call results, the final `_model` state, and the total number of
`from_pretrained` invocations. -/
def runCalls (construct : Except String Model) : Nat → Option Model →
    List (Except String Model) × Option Model × Nat
  | 0, st => ([], st, 0)
  | k + 1, st =>
    let r := get_model construct st
    let rest := runCalls construct k r.2.1
    (r.1 :: rest.1, rest.2.1, r.2.2 + rest.2.2)

/-! ### Micro-step interleaving model of `get_model`

The body of `get_model` is an unsynchronized check-then-set on the global
`_model`: a read-and-test (`if _model is None`) followed, on the `None`
branch, by a construct-and-assign (`_model = from_pretrained(...)`). No
lock or once-gate appears anywhere in the source. To examine whether this
is a single-flight mechanism, each call is broken into its two atomic
actions, and a scheduler interleaves the tasks' actions freely. -/

/-- Program counter of one task running `get_model`:
about to execute the `None` check; past the check on the `None` branch and
about to construct-and-assign; or finished. -/
inductive GMPc where
  | atCheck : GMPc
  | willConstruct : GMPc
  | finished : GMPc
deriving DecidableEq, Repr

/-- Shared global state plus every task's program counter. `constructions`
counts completed `from_pretrained` calls. -/
structure GMState where
  model : Option Model
  constructions : Nat
  tasks : List GMPc
deriving DecidableEq, Repr

/-- One atomic action of task `i`. A task at the check either observes a
published model (and finishes, returning it) or observes `None` and commits
to constructing; a task committed to constructing performs the
construct-and-assign. -/
def gmStep (s : GMState) (i : Nat) : GMState :=
  match s.tasks[i]? with
  | none => s
  | some GMPc.atCheck =>
    match s.model with
    | some _ => { s with tasks := s.tasks.set i GMPc.finished }
    | none => { s with tasks := s.tasks.set i GMPc.willConstruct }
  | some GMPc.willConstruct =>
    { s with
      model := some ⟨0⟩
      constructions := s.constructions + 1
      tasks := s.tasks.set i GMPc.finished }
  | some GMPc.finished => s

/-- Run the tasks under the interleaving given by `sched` (a list of task
indices, each entry letting that task take its next atomic action). -/
def gmRun (s : GMState) (sched : List Nat) : GMState :=
  sched.foldl gmStep s

/-! ### Response assembly -/

/-- Python truthiness of `hasattr(result, 'segments') and result.segments`:
false when the attribute is missing, `None`, or the empty list. -/
def pyTruthySegments : SegmentsAttr → Bool
  | SegmentsAttr.attrMissing => false
  | SegmentsAttr.attrNone => false
  | SegmentsAttr.attrList l => !l.isEmpty

/-- `result.segments or []`: the list itself when present and truthy,
otherwise the empty list. -/
def segmentsOrEmptyList : SegmentsAttr → List Segment
  | SegmentsAttr.attrList l => if l.isEmpty then [] else l
  | _ => []

/-- Lines 88-93 of server.py, the value of the response's `"segments"` key:

    [
        {"start": seg.start, "end": seg.end, "text": seg.text}
        for seg in (result.segments or [])
    ] if hasattr(result, 'segments') and result.segments else []
-/
def buildSegmentsField (sa : SegmentsAttr) : List SegOut :=
  if pyTruthySegments sa then
    (segmentsOrEmptyList sa).map
      (fun seg => { start := seg.start, stop := seg.stop, text := seg.text })
  else []

/-! ### The `/transcribe` handler -/

/-- Everything external that can vary across one request:
the upload's metadata, the outcome of reading its bytes, the outcome
`from_pretrained` would have if invoked, the behaviour of
`model.transcribe` on a path, and whether some external agent removed the
temporary file before the `finally` cleanup runs (the only way
`os.unlink` can fail here). -/
structure Env where
  filename : Option String
  contentType : Option String
  readResult : Except String Bytes
  constructResult : Except String Model
  transcribeResult : Model → String → Except String TranscriptionResult
  fileVanished : Bool

/-- The unique name `tempfile.NamedTemporaryFile` picked, with the chosen
suffix (uniqueness is abstracted away; only the suffix matters). -/
def tmpPath (suffix : String) : String := "/tmp/artifact" ++ suffix

/-- The message of the `FileNotFoundError` that `os.unlink` raises when the
file is already gone. -/
def fileNotFoundMsg : String := "[Errno 2] No such file or directory"

/-- What one run of the handler produced. -/
structure HandlerResult where
  outcome : Outcome
  tmpSuffix : String
  tmpExistsAfter : Bool
  modelState : Option Model
  constructions : Nat
  modelCalled : Bool
deriving Repr

/-- Lines 56-100 of server.py, the body of `transcribe(audio)`:

1. `suffix = Path(audio.filename).suffix if audio.filename else ".webm"`;
2. `with tempfile.NamedTemporaryFile(delete=False, suffix=suffix) as tmp:`
   creates the file on disk, then `content = await audio.read()` and
   `tmp.write(content)`; if the read raises, the `with` exit only closes
   the handle (`delete=False`), the exception escapes the handler and the
   created file is left on disk - `tmp_path` was never assigned and the
   `try/finally` below was never entered;
3. `try:` `model = get_model()`, `result = model.transcribe(tmp_path)`,
   build and return the `JSONResponse`;
4. `except Exception as e: raise HTTPException(status_code=500, detail=str(e))`;
5. `finally: os.unlink(tmp_path)` - with no guard, so if the file vanished
   the `FileNotFoundError` replaces whatever the `try`/`except` produced
   and escapes the handler. -/
def transcribe (env : Env) (st : Option Model) : HandlerResult :=
  let suffix := chooseSuffix env.filename
  match env.readResult with
  | Except.error e =>
    { outcome := Outcome.unhandled e
      tmpSuffix := suffix
      tmpExistsAfter := true
      modelState := st
      constructions := 0
      modelCalled := false }
  | Except.ok _content =>
    let gm := get_model env.constructResult st
    let primary : Outcome :=
      match gm.1 with
      | Except.error e => Outcome.httpError 500 e
      | Except.ok m =>
        match env.transcribeResult m (tmpPath suffix) with
        | Except.error e => Outcome.httpError 500 e
        | Except.ok result =>
          Outcome.ok
            { text := result.text
              segments := buildSegmentsField result.segments }
    { outcome := if env.fileVanished then Outcome.unhandled fileNotFoundMsg else primary
      tmpSuffix := suffix
      tmpExistsAfter := false
      modelState := gm.2.1
      constructions := gm.2.2
      modelCalled := true }

/-! ### The `/health` handler -/

/-- The body `{"status": "ok", "model": "parakeet-tdt-0.6b-v3"}`. -/
structure HealthResponse where
  status : String
  model : String
deriving DecidableEq, Repr

/-- Lines 52-54 of server.py: `health()` returns a fixed dict; it never
reads or writes `_model`, so the state passes through and no construction
happens. -/
def health (st : Option Model) : HealthResponse × Option Model × Nat :=
  ({ status := "ok", model := "parakeet-tdt-0.6b-v3" }, st, 0)

/-! ### Concrete environments used to instantiate the theorems -/

/-- A result whose `segments` attribute is present but empty. -/
def okResult : TranscriptionResult :=
  { text := "hello", segments := SegmentsAttr.attrList [] }

/-- One concrete segment. -/
def segA : Segment := { start := 0, stop := 1, text := "hi" }

/-- A result carrying one segment. -/
def resultSeg : TranscriptionResult :=
  { text := "hi", segments := SegmentsAttr.attrList [segA] }

/-- A request where everything succeeds. -/
def envHappy : Env :=
  { filename := some "clip.flac"
    contentType := some "audio/flac"
    readResult := Except.ok [1, 2, 3]
    constructResult := Except.ok ⟨7⟩
    transcribeResult := fun _ _ => Except.ok okResult
    fileVanished := false }

/-- A request (no filename) where `model.transcribe` raises. -/
def envInferFail : Env :=
  { filename := none
    contentType := none
    readResult := Except.ok [0]
    constructResult := Except.ok ⟨7⟩
    transcribeResult := fun _ _ => Except.error "inference exploded"
    fileVanished := false }

/-- A request where `audio.read()` raises inside the `with` block. -/
def envReadFail : Env :=
  { filename := some "clip.webm"
    contentType := some "audio/webm"
    readResult := Except.error "client disconnected during read"
    constructResult := Except.ok ⟨7⟩
    transcribeResult := fun _ _ => Except.ok okResult
    fileVanished := false }

/-- A request where inference succeeds but the temporary file was removed
externally before the `finally` cleanup, so `os.unlink` raises. -/
def envVanished : Env :=
  { filename := some "clip.wav"
    contentType := some "audio/wav"
    readResult := Except.ok [9]
    constructResult := Except.ok ⟨7⟩
    transcribeResult := fun _ _ => Except.ok okResult
    fileVanished := true }

/-- A request whose upload filename has no extension. -/
def envNoExt : Env :=
  { filename := some "clip"
    contentType := some "application/octet-stream"
    readResult := Except.ok [4]
    constructResult := Except.ok ⟨7⟩
    transcribeResult := fun _ _ => Except.ok resultSeg
    fileVanished := false }

end ParakeetServer

namespace ParakeetServer

/-! ### Helper lemmas -/

/-- Once `_model` is published, any number of further atomic `get_model`
calls return the same instance and construct nothing. -/
theorem runCalls_loaded (c : Except String Model) (m : Model) (k : Nat) :
    runCalls c k (some m) = (List.replicate k (Except.ok m), some m, 0) := by
  induction k with
  | zero => rfl
  | succ k ih => simp [runCalls, get_model, ih, List.replicate]

/-- The suffix of the temporary artifact is exactly `chooseSuffix` of the
upload's filename, on every path through the handler. -/
theorem transcribe_tmpSuffix (env : Env) (st : Option Model) :
    (transcribe env st).tmpSuffix = chooseSuffix env.filename := by
  cases h : env.readResult <;> simp [transcribe, h]

/-! ### Claim theorems -/

/-- C1 counterexample: `get_model` is an unsynchronized check-then-set, not
a mutual-exclusion gate or single-flight mechanism. Two concurrent first
calls from an uninitialized handle, interleaved so each passes the
`if _model is None` check before either performs the assignment (schedule
`[0, 1, 0, 1]`), perform TWO `from_pretrained` constructions — exactly the
race the claim says the code can never exhibit. -/
theorem check_then_set_double_construction :
    gmRun { model := none, constructions := 0, tasks := [GMPc.atCheck, GMPc.atCheck] }
        [0, 1, 0, 1] =
      { model := some ⟨0⟩, constructions := 2,
        tasks := [GMPc.finished, GMPc.finished] } := by
  decide

/-- C1 (amended): the code has no lock, but each `get_model` call contains
no `await` point, so on the single-threaded event loop every call runs
atomically; under that scheduling, any `k + 1 ≥ 1` (hence any `N ≥ 2`)
first calls from an uninitialized handle perform exactly one
`from_pretrained` construction and every caller receives the constructed
model. -/
theorem atomic_first_calls_construct_once (m : Model) (k : Nat) :
    runCalls (Except.ok m) (k + 1) none =
      (List.replicate (k + 1) (Except.ok m), some m, 1) := by
  simp [runCalls, get_model, runCalls_loaded, List.replicate]

/-- C2: whenever the `with` block completed (the upload bytes were read and
written, so `tmp_path` was assigned and the `try/finally` entered), the
temporary artifact file no longer exists when the handler returns — on the
success path, on the `HTTPException` path, and on the unlink-failure path
alike. -/
theorem tmpfile_deleted_on_all_exit_paths (env : Env) (st : Option Model)
    (content : Bytes) (hread : env.readResult = Except.ok content) :
    (transcribe env st).tmpExistsAfter = false := by
  simp [transcribe, hread]

/-- C2 witness. -/
theorem tmpfile_deleted_on_all_exit_paths_witness :
    envHappy.readResult = Except.ok [1, 2, 3] ∧
    (transcribe envHappy none).tmpExistsAfter = false :=
  ⟨rfl, tmpfile_deleted_on_all_exit_paths envHappy none [1, 2, 3] rfl⟩

/-- C3: when model acquisition or the model's transcription capability
raises (and the cleanup itself does not fail, which the handler's own
execution guarantees absent external tampering), the handler surfaces an
`HTTPException` with status 500 whose detail is the string description of
the underlying failure; it is never an unhandled fault. -/
theorem model_failure_mapped_to_http500 (env : Env) (st : Option Model)
    (content : Bytes) (e : String)
    (hread : env.readResult = Except.ok content)
    (hclean : env.fileVanished = false)
    (hfail : (get_model env.constructResult st).1 = Except.error e ∨
      ∃ m : Model, (get_model env.constructResult st).1 = Except.ok m ∧
        env.transcribeResult m (tmpPath (chooseSuffix env.filename)) = Except.error e) :
    (transcribe env st).outcome = Outcome.httpError 500 e := by
  rcases hfail with h | ⟨m, hm, ht⟩
  · simp [transcribe, hread, hclean, h]
  · simp [transcribe, hread, hclean, hm, ht]

/-- C3 witness. -/
theorem model_failure_mapped_to_http500_witness :
    envInferFail.readResult = Except.ok [0] ∧
    envInferFail.fileVanished = false ∧
    (transcribe envInferFail none).outcome = Outcome.httpError 500 "inference exploded" :=
  ⟨rfl, rfl,
    model_failure_mapped_to_http500 envInferFail none [0] "inference exploded" rfl rfl
      (Or.inr ⟨⟨7⟩, rfl, rfl⟩)⟩

/-- C4: on the success path, the response's `text` is the result's text
verbatim, and its `segments` is the ordered `{start, end, text}` image of
the result's segment list when that list is present and non-empty, and is
exactly the empty list (present, not omitted, not null — the field always
exists in `TranscribeResponse`) when the attribute is missing, `None`, or
the empty list. -/
theorem response_mapping_text_and_segments (env : Env) (st : Option Model)
    (content : Bytes) (m : Model) (r : TranscriptionResult)
    (hread : env.readResult = Except.ok content)
    (hclean : env.fileVanished = false)
    (hm : (get_model env.constructResult st).1 = Except.ok m)
    (hr : env.transcribeResult m (tmpPath (chooseSuffix env.filename)) = Except.ok r) :
    ∃ resp : TranscribeResponse,
      (transcribe env st).outcome = Outcome.ok resp ∧
      resp.text = r.text ∧
      (∀ l : List Segment, r.segments = SegmentsAttr.attrList l → l ≠ [] →
        resp.segments = l.map
          (fun seg => { start := seg.start, stop := seg.stop, text := seg.text })) ∧
      ((r.segments = SegmentsAttr.attrMissing ∨ r.segments = SegmentsAttr.attrNone ∨
          r.segments = SegmentsAttr.attrList []) → resp.segments = []) := by
  refine ⟨{ text := r.text, segments := buildSegmentsField r.segments }, ?_, rfl, ?_, ?_⟩
  · simp [transcribe, hread, hclean, hm, hr]
  · intro l hl hne
    simp [buildSegmentsField, hl, pyTruthySegments, segmentsOrEmptyList, hne]
  · rintro (h | h | h) <;>
      simp [buildSegmentsField, h, pyTruthySegments, segmentsOrEmptyList]

/-- C4 witness. -/
theorem response_mapping_text_and_segments_witness :
    envHappy.readResult = Except.ok [1, 2, 3] ∧
    envHappy.fileVanished = false ∧
    (get_model envHappy.constructResult none).1 = Except.ok ⟨7⟩ ∧
    envHappy.transcribeResult ⟨7⟩ (tmpPath (chooseSuffix envHappy.filename)) =
      Except.ok okResult ∧
    (∃ resp : TranscribeResponse,
      (transcribe envHappy none).outcome = Outcome.ok resp ∧
      resp.text = okResult.text ∧
      (∀ l : List Segment, okResult.segments = SegmentsAttr.attrList l → l ≠ [] →
        resp.segments = l.map
          (fun seg => { start := seg.start, stop := seg.stop, text := seg.text })) ∧
      ((okResult.segments = SegmentsAttr.attrMissing ∨
          okResult.segments = SegmentsAttr.attrNone ∨
          okResult.segments = SegmentsAttr.attrList []) → resp.segments = [])) :=
  ⟨rfl, rfl, rfl, rfl,
    response_mapping_text_and_segments envHappy none [1, 2, 3] ⟨7⟩ okResult rfl rfl rfl rfl⟩

/-- C5 counterexample: when `audio.read()` raises inside the `with` block,
the already-created temporary file (created by `NamedTemporaryFile` with
`delete=False` before the read) is left on disk — the claim that no partial
artifact is left behind is false on the code. -/
theorem read_failure_leaks_tmpfile :
    (transcribe envReadFail none).tmpExistsAfter = true ∧
    (transcribe envReadFail none).modelCalled = false :=
  ⟨rfl, rfl⟩

/-- C5 (amended): an upload read failure escapes the handler as an
unhandled fault (rendered by the framework as a generic server error)
before any model acquisition or invocation, but the created temporary file
remains on disk — the `try/finally` cleanup was never entered. -/
theorem read_failure_unhandled_before_model (env : Env) (st : Option Model)
    (e : String) (hread : env.readResult = Except.error e) :
    (transcribe env st).outcome = Outcome.unhandled e ∧
    (transcribe env st).modelCalled = false ∧
    (transcribe env st).constructions = 0 ∧
    (transcribe env st).tmpExistsAfter = true := by
  refine ⟨?_, ?_, ?_, ?_⟩ <;> simp [transcribe, hread]

/-- C5 witness. -/
theorem read_failure_unhandled_before_model_witness :
    envReadFail.readResult = Except.error "client disconnected during read" ∧
    (transcribe envReadFail none).outcome =
      Outcome.unhandled "client disconnected during read" ∧
    (transcribe envReadFail none).modelCalled = false ∧
    (transcribe envReadFail none).constructions = 0 ∧
    (transcribe envReadFail none).tmpExistsAfter = true :=
  ⟨rfl,
    read_failure_unhandled_before_model envReadFail none
      "client disconnected during read" rfl⟩

/-- C6 counterexample: the `finally: os.unlink(tmp_path)` is unguarded.
On a request where inference succeeds (with the file present the handler
would return the success response, first conjunct), an unlink failure
(file already removed) replaces that primary outcome: the caller observes
the unhandled `FileNotFoundError`, not the response — the cleanup failure
does mask the primary result. -/
theorem unlink_failure_masks_success :
    (transcribe { envVanished with fileVanished := false } none).outcome =
      Outcome.ok { text := "hello", segments := [] } ∧
    (transcribe envVanished none).outcome = Outcome.unhandled fileNotFoundMsg :=
  ⟨rfl, rfl⟩

/-- C6 (amended): when the temporary file has vanished before cleanup, the
`FileNotFoundError` raised by `os.unlink` in the `finally` block replaces
whatever the `try`/`except` produced — success response and
`HTTPException` alike — and escapes the handler unhandled. -/
theorem unlink_failure_replaces_primary_outcome (env : Env) (st : Option Model)
    (content : Bytes) (hread : env.readResult = Except.ok content)
    (hv : env.fileVanished = true) :
    (transcribe env st).outcome = Outcome.unhandled fileNotFoundMsg := by
  simp [transcribe, hread, hv]

/-- C6 witness. -/
theorem unlink_failure_replaces_primary_outcome_witness :
    envVanished.readResult = Except.ok [9] ∧
    envVanished.fileVanished = true ∧
    (transcribe envVanished none).outcome = Outcome.unhandled fileNotFoundMsg :=
  ⟨rfl, rfl, unlink_failure_replaces_primary_outcome envVanished none [9] rfl rfl⟩

/-- C7: the model handle is a process-wide singleton on the success path —
a call finding `_model` already set returns that same instance with zero
`from_pretrained` invocations and leaves the state unchanged; if
construction raises, `_model` stays `None` so the next call retries; and a
successful first construction publishes the instance. -/
theorem model_singleton_and_retry (construct : Except String Model) :
    (∀ m : Model, get_model construct (some m) = (Except.ok m, some m, 0)) ∧
    (∀ e : String, construct = Except.error e →
      get_model construct none = (Except.error e, none, 1)) ∧
    (∀ m : Model, construct = Except.ok m →
      get_model construct none = (Except.ok m, some m, 1)) := by
  refine ⟨fun m => rfl, ?_, ?_⟩
  · intro e he; simp [get_model, he]
  · intro m hm; simp [get_model, hm]

/-- C7 witness. -/
theorem model_singleton_and_retry_witness :
    get_model (Except.ok ⟨7⟩) (some ⟨3⟩) = (Except.ok ⟨3⟩, some ⟨3⟩, 0) ∧
    get_model (Except.error "load failed") none =
      (Except.error "load failed", none, 1) ∧
    get_model (Except.ok ⟨7⟩) none = (Except.ok ⟨7⟩, some ⟨7⟩, 1) :=
  ⟨(model_singleton_and_retry (Except.ok ⟨7⟩)).1 ⟨3⟩,
    (model_singleton_and_retry (Except.error "load failed")).2.1 "load failed" rfl,
    (model_singleton_and_retry (Except.ok ⟨7⟩)).2.2 ⟨7⟩ rfl⟩

/-- C8: the temporary artifact's extension is the `pathlib` suffix of the
upload's filename when a non-empty filename is present (`clip.flac` yields
`.flac`), and the default `.webm` when no filename is supplied. -/
theorem suffix_from_filename_or_default :
    (∀ (env : Env) (st : Option Model) (s : String), env.filename = some s → s ≠ "" →
      (transcribe env st).tmpSuffix = pathSuffix s) ∧
    (∀ (env : Env) (st : Option Model), env.filename = some "clip.flac" →
      (transcribe env st).tmpSuffix = ".flac") ∧
    (∀ (env : Env) (st : Option Model), env.filename = none →
      (transcribe env st).tmpSuffix = ".webm") := by
  refine ⟨?_, ?_, ?_⟩
  · intro env st s hs hne
    rw [transcribe_tmpSuffix, hs]
    simp [chooseSuffix, hne]
  · intro env st hs
    rw [transcribe_tmpSuffix, hs]
    decide
  · intro env st hs
    rw [transcribe_tmpSuffix, hs]
    rfl

/-- C8 witness. -/
theorem suffix_from_filename_or_default_witness :
    envHappy.filename = some "clip.flac" ∧
    (transcribe envHappy none).tmpSuffix = ".flac" ∧
    envInferFail.filename = none ∧
    (transcribe envInferFail none).tmpSuffix = ".webm" :=
  ⟨rfl, suffix_from_filename_or_default.2.1 envHappy none rfl, rfl,
    suffix_from_filename_or_default.2.2 envInferFail none rfl⟩

/-- C9: the health endpoint returns the fixed body
`{"status": "ok", "model": "parakeet-tdt-0.6b-v3"}`, identical for every
model-lifecycle state, leaves the state untouched and performs zero model
constructions. -/
theorem health_constant_stateless (st st' : Option Model) :
    (health st).1 = { status := "ok", model := "parakeet-tdt-0.6b-v3" } ∧
    (health st).1 = (health st').1 ∧
    (health st).2.1 = st ∧
    (health st).2.2 = 0 :=
  ⟨rfl, rfl, rfl, rfl⟩

/-- C10: a present filename with no dot-separated extension yields an
empty artifact suffix, not `.webm` (`clip` yields `""`); the `.webm`
default applies only to an absent or empty filename. -/
theorem extensionless_filename_empty_suffix :
    (∀ (env : Env) (st : Option Model) (s : String), env.filename = some s → s ≠ "" →
      lastDotIdx (pathNameChars s) = none → (transcribe env st).tmpSuffix = "") ∧
    (∀ (env : Env) (st : Option Model), env.filename = some "clip" →
      (transcribe env st).tmpSuffix = "") ∧
    (∀ (env : Env) (st : Option Model), env.filename = some "" →
      (transcribe env st).tmpSuffix = ".webm") := by
  refine ⟨?_, ?_, ?_⟩
  · intro env st s hs hne hdot
    rw [transcribe_tmpSuffix, hs]
    simp [chooseSuffix, hne, pathSuffix, hdot]
  · intro env st hs
    rw [transcribe_tmpSuffix, hs]
    decide
  · intro env st hs
    rw [transcribe_tmpSuffix, hs]
    decide

/-- C10 witness. -/
theorem extensionless_filename_empty_suffix_witness :
    envNoExt.filename = some "clip" ∧
    (transcribe envNoExt none).tmpSuffix = "" :=
  ⟨rfl, extensionless_filename_empty_suffix.2.1 envNoExt none rfl⟩

end ParakeetServer
